import Mathlib

/-!
Verification of the dataset-builder core
(`tensorflow_datasets/core/dataset_builder.py`) and the FLIC example
generator (`tensorflow_datasets/image/flic.py`).

The Python classes are embedded shallowly: the builder's mutable fields
(`_version`, `_data_dir`) become an explicit `BuilderState`, the filesystem
is the list of version directories present under the builder's data
directory, and every operation that can `raise` returns `Except`.
-/

/-- Modelled from the spec: `utils.Version` is not under `src/`.  Spec §3:
"a 3-component ordered tuple (major, minor, patch) with total order".
This is the explicit-literal form; the symbolic AUTO/LATEST forms live in
`VersionReq`. -/
structure SemVer where
  major : Nat
  minor : Nat
  patch : Nat
deriving DecidableEq, Repr

/-- Lexicographic strict order on versions (the `<` used by
`data_version < code_version` in `_choose_version` and the sort in
`_get_data_dir`). -/
def SemVer.ltb (a b : SemVer) : Bool :=
  (a.major < b.major) ||
    (a.major = b.major &&
      ((a.minor < b.minor) || (a.minor = b.minor && a.patch < b.patch)))

/-- Modelled from the spec: the requested version passed to
`DatasetBuilder.__init__` — "three reserved symbolic values — AUTO (infer),
LATEST (newest on disk or code's declared version), and an explicit
literal" (spec §3). -/
inductive VersionReq
  | auto
  | latest
  | explicitV (v : SemVer)
deriving DecidableEq, Repr

/-- The distinguishable error kinds raised by `dataset_builder.py`.  The
source raises `ValueError`/`AssertionError` with distinct messages; the
spec names them (§7 taxonomy). -/
inductive BuilderError
  /-- `AssertionError` "does not have defined version" (`_set_version`). -/
  | noVersionDefined
  /-- `ValueError` "Could not find the requested version" (`_choose_version`
  case 3); spec name `VersionNotFoundError`. -/
  | versionNotFound
  /-- `ValueError` "dataset present ... is at a higher version than the
  code" (`_choose_version` case 4); spec name `StaleCodeError`. -/
  | staleCode
  /-- `AssertionError` "Version as been defined, yet isn't restored yet."
  (`_set_version` step 3). -/
  | versionAlreadySet
  /-- `ValueError` "cannot generate a dataset if it has already loaded
  data" (`download_and_prepare`); spec name `AlreadyBoundError`. -/
  | alreadyBound
  /-- `ValueError` "Trying to overwrite an existing dataset"
  (`download_and_prepare`); spec name `VersionCollisionError`. -/
  | versionCollision
deriving DecidableEq, Repr

/-- The newest valid version directory under the builder's data dir:
the `version_dirnames.sort(reverse=True)` / take-first logic of
`_get_data_dir`.  `disk` lists the versions whose directories exist
(directory names that do not parse as versions are skipped by the
source's `except ValueError` and so are not listed). -/
def latestOnDisk (disk : List SemVer) : Option SemVer :=
  disk.foldr
    (fun v acc =>
      match acc with
      | none => some v
      | some w => some (if SemVer.ltb w v then v else w))
    none

/-- `DatasetBuilder._get_data_dir`, with a directory identified by its
version component.  For an explicit version the source returns
`os.path.join(builder_data_dir, str(version))` without any existence
check; for AUTO/LATEST it returns the highest version directory found, or
`None` when there is none. -/
def getDataDir (req : VersionReq) (disk : List SemVer) : Option SemVer :=
  match req with
  | VersionReq.explicitV v => some v
  | _ => latestOnDisk disk

/-- `DatasetBuilder._choose_version`.  Returns `(use_code, warned)`:
`use_code` is the source's return value, `warned` records whether the
backward-compatibility warning (case 4, `code_version > data_version`)
was logged. -/
def chooseVersion (requested : VersionReq) (dataVersion : Option SemVer)
    (codeVersion : SemVer) : Except BuilderError (Bool × Bool) :=
  match dataVersion with
  | none =>
      -- case 1: no data on disk and mode is LATEST or AUTO
      if requested = VersionReq.auto ∨ requested = VersionReq.latest then
        Except.ok (true, false)
      -- case 3: no data on disk but version explicitly set
      else
        Except.error BuilderError.versionNotFound
  | some dv =>
      -- case 2: data on disk at a previous version, LATEST mode
      if SemVer.ltb dv codeVersion = true ∧ requested = VersionReq.latest then
        Except.ok (true, false)
      -- case 4: data version restored; raise if the code is older than data
      else if SemVer.ltb codeVersion dv = true then
        Except.error BuilderError.staleCode
      else
        Except.ok (false, SemVer.ltb dv codeVersion)

/-- The builder's version-related mutable state: `self._version` and
`self._data_dir` (a bound directory is identified by the version it is
named after, `_set_version` recovering it via
`Version(os.path.basename(self._data_dir))`). -/
structure BuilderState where
  version : Option SemVer
  dataDir : Option SemVer
deriving DecidableEq, Repr

/-- `DatasetBuilder._set_version`.  `codeVersionOpt` is the code-declared
version (`BuilderConfig.version` or `VERSION`; `none` when neither is
set).  Returns the updated state and the warning flag. -/
def setVersion (codeVersionOpt : Option SemVer) (requested : VersionReq)
    (st : BuilderState) : Except BuilderError (BuilderState × Bool) :=
  match codeVersionOpt with
  | none => Except.error BuilderError.noVersionDefined
  | some codeVersion =>
      -- step 1: data_version is parsed back out of the bound directory name
      match chooseVersion requested st.dataDir codeVersion with
      | Except.error e => Except.error e
      | Except.ok (useCode, warned) =>
          -- step 3: fail fast if the version was already set
          if st.version ≠ none then
            Except.error BuilderError.versionAlreadySet
          -- step 4: bind either the code version or the data version
          else if useCode then
            Except.ok ({ version := some codeVersion, dataDir := none }, warned)
          else
            Except.ok ({ version := st.dataDir, dataDir := st.dataDir }, warned)

/-- `DatasetBuilder.__init__`: compute `_data_dir` via `_get_data_dir`,
then run `_set_version` on the fresh state. -/
def initBuilder (codeVersionOpt : Option SemVer) (requested : VersionReq)
    (disk : List SemVer) : Except BuilderError (BuilderState × Bool) :=
  setVersion codeVersionOpt requested
    { version := none, dataDir := getDataDir requested disk }

/-- `tfds.GenerateMode` (`download.GenerateMode`), as used by
`download_and_prepare`. -/
inductive GenerateMode
  | forceRedownload
  | reuseCacheIfExists
  | reuseDatasetIfExists
deriving DecidableEq, Repr

/-- How a successful `download_and_prepare` call finished: reusing the
already-bound directory, or generating a fresh one. -/
inductive PrepareOutcome
  | reused
  | generated
deriving DecidableEq, Repr

/-- `DatasetBuilder.download_and_prepare`, up to the point where the
directory to generate into is fixed.  The generation body itself
(download manager, shard writing, stats) is the external collaborator and
is abstracted into the `generated` outcome with the target directory
bound.  `disk` plays the role of `tf.gfile.Exists` on the target
directory. -/
def downloadAndPrepare (modeOpt : Option GenerateMode) (disk : List SemVer)
    (st : BuilderState) : Except BuilderError (BuilderState × PrepareOutcome) :=
  let mode := modeOpt.getD GenerateMode.reuseDatasetIfExists
  -- already bound and mode is REUSE_DATASET_IF_EXISTS: reuse, return
  if st.dataDir ≠ none ∧ mode = GenerateMode.reuseDatasetIfExists then
    Except.ok (st, PrepareOutcome.reused)
  -- already bound otherwise: refuse to regenerate
  else if st.dataDir ≠ none then
    Except.error BuilderError.alreadyBound
  else
    -- `self.info.version`; `.info` asserts that `_version` has been set
    match st.version with
    | none => Except.error BuilderError.noVersionDefined
    | some v =>
        -- never overwrite an existing version directory
        if v ∈ disk then
          Except.error BuilderError.versionCollision
        else
          Except.ok ({ st with dataDir := some v }, PrepareOutcome.generated)

/-- `BuilderConfig`: `objId` models Python object identity (the source's
`is not` check); `version`/`description` use `""` for Python
`None`-or-empty, matching the source's truthiness tests
(`if not builder_config.version`). -/
structure BuilderConfig where
  objId : Nat
  name : String
  version : String
  description : String
deriving DecidableEq, Repr

/-- The errors raised by `_create_builder_config` and the
`builder_configs` class property. -/
inductive ConfigError
  /-- "Names in BUILDER_CONFIGS must not be duplicated." -/
  | duplicateNames
  /-- "BuilderConfig %s not found." -/
  | configNotFound
  /-- "BuilderConfig must have a name." -/
  | missingName
  /-- "Cannot name a custom BuilderConfig the same as an available
  BuilderConfig." -/
  | customNameClash
  /-- "BuilderConfig %s must have a version." -/
  | missingVersion
  /-- "BuilderConfig %s must have a description." -/
  | missingDescription
deriving DecidableEq, Repr

/-- The `config` argument of `DatasetBuilder.__init__`: a `str` name or a
`BuilderConfig` object. -/
inductive ConfigArg
  | byName (n : String)
  | byValue (c : BuilderConfig)
deriving DecidableEq, Repr

/-- Duplicate-name check performed by the `builder_configs` class
property before the name → config dict is usable. -/
def hasDupNames (cfgs : List BuilderConfig) : Bool :=
  ¬ (cfgs.map (fun c => c.name)).Nodup

/-- `self.builder_configs.get(name)` / `name in self.builder_configs`
(first match; names are unique whenever the dict is reachable). -/
def lookupConfig (cfgs : List BuilderConfig) (n : String) :
    Option BuilderConfig :=
  cfgs.find? (fun c => c.name = n)

/-- The validation tail of `_create_builder_config`, from the
`name = builder_config.name` line on: name check, custom/declared split,
identity check and version/description requirements for a declared
config. -/
def validateConfig (c : BuilderConfig) (cfgs : List BuilderConfig) :
    Except ConfigError (Option BuilderConfig) :=
  if c.name = "" then
    Except.error ConfigError.missingName
  -- `self.builder_configs` access: duplicate names fail here
  else if hasDupNames cfgs = true then
    Except.error ConfigError.duplicateNames
  else
    match lookupConfig cfgs c.name with
    | none =>
        -- custom config: warning logged, accepted as-is
        Except.ok (some c)
    | some reg =>
        -- non-custom: must be the very object declared by the code
        if reg ≠ c then
          Except.error ConfigError.customNameClash
        else if c.version = "" then
          Except.error ConfigError.missingVersion
        else if c.description = "" then
          Except.error ConfigError.missingDescription
        else
          Except.ok (some c)

/-- `DatasetBuilder._create_builder_config`.  `cfgs` is the class's
`BUILDER_CONFIGS` list. -/
def createBuilderConfig (arg : Option ConfigArg) (cfgs : List BuilderConfig) :
    Except ConfigError (Option BuilderConfig) :=
  -- default to the first declared config when none is given
  let arg1 : Option ConfigArg :=
    match arg, cfgs with
    | none, c :: _ => some (ConfigArg.byValue c)
    | a, _ => a
  match arg1 with
  | none => Except.ok none
  -- `if not builder_config: return` — the empty string is falsy
  | some (ConfigArg.byName "") => Except.ok none
  | some (ConfigArg.byName n) =>
      if hasDupNames cfgs = true then
        Except.error ConfigError.duplicateNames
      else
        match lookupConfig cfgs n with
        | none => Except.error ConfigError.configNotFound
        | some c => validateConfig c cfgs
  | some (ConfigArg.byValue c) => validateConfig c cfgs

/-- One entry of `data["examples"]` in `flic.py`: `field7`/`field8` are
the truthiness of `example[7]` (is-train flag) and `example[8]` (is-test
flag); `payload` stands for the remaining fields (image path, coords,
movie name, ...) copied into the yielded dictionary. -/
structure FlicExample where
  field7 : Bool
  field8 : Bool
  payload : Nat
deriving DecidableEq, Repr

/-- `Flic._generate_examples`: enumerate the records and yield
`(u_id, example)` exactly when
`(example[7] and istrain) or (example[8] and istest)`. -/
def generateExamples (istrain istest : Bool) (examples : List FlicExample) :
    List (Nat × FlicExample) :=
  examples.enum.filter
    (fun p => (p.2.field7 && istrain) || (p.2.field8 && istest))

/-! ## Theorems -/

/-- Strict version order is asymmetric: shared helper for the
`_choose_version` case-4 branches. -/
theorem SemVer.ltb_asymm {a b : SemVer} (h : SemVer.ltb a b = true) :
    SemVer.ltb b a = false := by
  simp only [SemVer.ltb, Bool.or_eq_true, Bool.and_eq_true, decide_eq_true_eq,
    Bool.or_eq_false_iff, Bool.and_eq_false_iff, decide_eq_false_iff_not] at h ⊢
  omega

/-- C1: the spec says a builder constructed with an explicit version that
is absent on disk fails with `VersionNotFoundError`.  The code does not:
`_get_data_dir` returns the joined path for an explicit version without
any existence check, so `_choose_version` sees a parsed `data_version`,
takes its restore branch, and binds the nonexistent directory (even
logging the backward-compatibility warning).  Concretely, requesting
v0.9.0 with nothing on disk and code at v1.0.0 succeeds with the
directory bound. -/
theorem c1_explicit_absent_binds_missing_directory :
    initBuilder (some ⟨1, 0, 0⟩) (VersionReq.explicitV ⟨0, 9, 0⟩) [] =
      Except.ok
        ({ version := some ⟨0, 9, 0⟩, dataDir := some ⟨0, 9, 0⟩ }, true) :=
  rfl

/-- C3: in LATEST mode with the newest on-disk version strictly below the
code version, resolution uses the code version and leaves the data
directory unset. -/
theorem c3_latest_stale_disk_uses_code (disk : List SemVer) (code dv : SemVer)
    (hdisk : latestOnDisk disk = some dv) (hlt : SemVer.ltb dv code = true) :
    initBuilder (some code) VersionReq.latest disk =
      Except.ok ({ version := some code, dataDir := none }, false) := by
  simp [initBuilder, setVersion, getDataDir, hdisk, chooseVersion, hlt]

/-- Witness for C3: disk at v0.9.0, code at v1.0.0. -/
theorem c3_latest_stale_disk_uses_code_witness :
    initBuilder (some ⟨1, 0, 0⟩) VersionReq.latest [⟨0, 9, 0⟩] =
      Except.ok ({ version := some ⟨1, 0, 0⟩, dataDir := none }, false) :=
  c3_latest_stale_disk_uses_code [⟨0, 9, 0⟩] ⟨1, 0, 0⟩ ⟨0, 9, 0⟩ rfl rfl

/-- C4: whenever the builder's bound data directory carries a version
strictly above the code version, `_set_version` fails with the
stale-code error (for every requested mode); the newer on-disk data is
never bound. -/
theorem c4_future_data_raises_stale_code (requested : VersionReq)
    (st : BuilderState) (code dv : SemVer)
    (hdata : st.dataDir = some dv) (hlt : SemVer.ltb code dv = true) :
    setVersion (some code) requested st =
      Except.error BuilderError.staleCode := by
  have hfalse : SemVer.ltb dv code = false := SemVer.ltb_asymm hlt
  simp [setVersion, hdata, chooseVersion, hlt, hfalse]

/-- Witness for C4: data at v1.1.0, code at v1.0.0, AUTO mode. -/
theorem c4_future_data_raises_stale_code_witness :
    setVersion (some ⟨1, 0, 0⟩) VersionReq.auto
        { version := none, dataDir := some ⟨1, 1, 0⟩ } =
      Except.error BuilderError.staleCode :=
  c4_future_data_raises_stale_code VersionReq.auto
    { version := none, dataDir := some ⟨1, 1, 0⟩ } ⟨1, 0, 0⟩ ⟨1, 1, 0⟩ rfl rfl

/-- C5: when the builder resolves to on-disk data (requested mode is not
LATEST, so the stale-data branch cannot preempt) whose version is
strictly below the code version, `_set_version` succeeds: the
backward-compatibility warning is emitted, no error is raised, and the
on-disk version is bound together with its directory. -/
theorem c5_older_data_restored_with_warning (requested : VersionReq)
    (st : BuilderState) (code dv : SemVer)
    (hreq : requested ≠ VersionReq.latest) (hdata : st.dataDir = some dv)
    (hfresh : st.version = none) (hlt : SemVer.ltb dv code = true) :
    setVersion (some code) requested st =
      Except.ok ({ version := some dv, dataDir := some dv }, true) := by
  have hfalse : SemVer.ltb code dv = false := SemVer.ltb_asymm hlt
  simp [setVersion, hdata, chooseVersion, hlt, hfalse, hreq, hfresh]

/-- Witness for C5: AUTO mode, data at v0.9.0, code at v1.0.0. -/
theorem c5_older_data_restored_with_warning_witness :
    setVersion (some ⟨1, 0, 0⟩) VersionReq.auto
        { version := none, dataDir := some ⟨0, 9, 0⟩ } =
      Except.ok
        ({ version := some ⟨0, 9, 0⟩, dataDir := some ⟨0, 9, 0⟩ }, true) :=
  c5_older_data_restored_with_warning VersionReq.auto
    { version := none, dataDir := some ⟨0, 9, 0⟩ } ⟨1, 0, 0⟩ ⟨0, 9, 0⟩
    (by simp) rfl rfl rfl

/-- C6: a fresh (unbound) builder whose target version directory already
exists on disk fails `download_and_prepare` with the collision error,
for every generate mode: a committed version directory is never
overwritten. -/
theorem c6_existing_target_raises_collision (modeOpt : Option GenerateMode)
    (st : BuilderState) (disk : List SemVer) (v : SemVer)
    (hunbound : st.dataDir = none) (hver : st.version = some v)
    (hdisk : v ∈ disk) :
    downloadAndPrepare modeOpt disk st =
      Except.error BuilderError.versionCollision := by
  simp [downloadAndPrepare, hunbound, hver, hdisk]

/-- Witness for C6: version v1.0.0 already committed on disk. -/
theorem c6_existing_target_raises_collision_witness :
    downloadAndPrepare none [⟨1, 0, 0⟩]
        { version := some ⟨1, 0, 0⟩, dataDir := none } =
      Except.error BuilderError.versionCollision :=
  c6_existing_target_raises_collision none
    { version := some ⟨1, 0, 0⟩, dataDir := none } [⟨1, 0, 0⟩] ⟨1, 0, 0⟩
    rfl rfl (by simp)

/-- C2 counterexample: a builder that has generated v1.0.0 (so its data
directory is bound) and calls `download_and_prepare` a second time with
the default mode does not raise: the call returns successfully, reusing
the bound directory (`REUSE_DATASET_IF_EXISTS` short-circuit). -/
theorem c2_second_prepare_reuses_without_error :
    (downloadAndPrepare none [] { version := some ⟨1, 0, 0⟩, dataDir := none } =
      Except.ok
        ({ version := some ⟨1, 0, 0⟩, dataDir := some ⟨1, 0, 0⟩ },
          PrepareOutcome.generated)) ∧
    (downloadAndPrepare none [⟨1, 0, 0⟩]
        { version := some ⟨1, 0, 0⟩, dataDir := some ⟨1, 0, 0⟩ } =
      Except.ok
        ({ version := some ⟨1, 0, 0⟩, dataDir := some ⟨1, 0, 0⟩ },
          PrepareOutcome.reused)) :=
  ⟨rfl, rfl⟩

/-- C2 (amended): on a builder already bound to a data directory,
`download_and_prepare` with the default `REUSE_DATASET_IF_EXISTS` mode
returns successfully without regenerating, and raises the already-bound
error exactly when a non-default mode is requested. -/
theorem c2_bound_builder_reuses_or_refuses (st : BuilderState)
    (disk : List SemVer) (hbound : st.dataDir ≠ none) :
    (downloadAndPrepare none disk st = Except.ok (st, PrepareOutcome.reused)) ∧
    (∀ mode : GenerateMode, mode ≠ GenerateMode.reuseDatasetIfExists →
      downloadAndPrepare (some mode) disk st =
        Except.error BuilderError.alreadyBound) := by
  constructor
  · simp [downloadAndPrepare, hbound]
  · intro mode hmode
    simp [downloadAndPrepare, hbound, hmode]

/-- Witness for C2 (amended): bound builder, default mode reuses,
`FORCE_REDOWNLOAD` mode is refused. -/
theorem c2_bound_builder_reuses_or_refuses_witness :
    (downloadAndPrepare none []
        { version := some ⟨1, 0, 0⟩, dataDir := some ⟨1, 0, 0⟩ } =
      Except.ok
        ({ version := some ⟨1, 0, 0⟩, dataDir := some ⟨1, 0, 0⟩ },
          PrepareOutcome.reused)) ∧
    (downloadAndPrepare (some GenerateMode.forceRedownload) []
        { version := some ⟨1, 0, 0⟩, dataDir := some ⟨1, 0, 0⟩ } =
      Except.error BuilderError.alreadyBound) := by
  have h := c2_bound_builder_reuses_or_refuses
    { version := some ⟨1, 0, 0⟩, dataDir := some ⟨1, 0, 0⟩ } [] (by simp)
  exact ⟨h.1, h.2 GenerateMode.forceRedownload (by simp)⟩

/-- C7: the version decision is evaluated exactly once per builder
instance.  Whenever `_set_version` has succeeded (leaving the chosen
version set in the resulting state), running `_set_version` again on
that state — with the same requested mode, as `__init__` would — fails
fast with the step-3 assertion error, so the chosen version can never
change. -/
theorem c7_version_decision_evaluated_once (codeVersionOpt : Option SemVer)
    (requested : VersionReq) (st st1 : BuilderState) (w : Bool)
    (h : setVersion codeVersionOpt requested st = Except.ok (st1, w)) :
    setVersion codeVersionOpt requested st1 =
      Except.error BuilderError.versionAlreadySet := by
  cases codeVersionOpt with
  | none => simp [setVersion] at h
  | some code =>
    cases hd : st.dataDir with
    | none =>
      by_cases hreq : requested = VersionReq.auto ∨ requested = VersionReq.latest
      · simp [setVersion, chooseVersion, hd, hreq] at h
        split_ifs at h with hv
        simp only [Except.ok.injEq, Prod.mk.injEq] at h
        obtain ⟨h1, hw⟩ := h
        subst h1
        simp [setVersion, chooseVersion, hreq]
      · simp [setVersion, chooseVersion, hd, hreq] at h
    | some dv =>
      by_cases h2 : SemVer.ltb dv code = true ∧ requested = VersionReq.latest
      · simp [setVersion, chooseVersion, hd, h2] at h
        split_ifs at h with hv
        simp only [Except.ok.injEq, Prod.mk.injEq] at h
        obtain ⟨h1, hw⟩ := h
        subst h1
        simp [setVersion, chooseVersion, h2.2]
      · by_cases h3 : SemVer.ltb code dv = true
        · simp [setVersion, chooseVersion, hd, h2, h3] at h
        · simp [setVersion, chooseVersion, hd, h2, h3] at h
          split_ifs at h with hv
          simp only [Except.ok.injEq, Prod.mk.injEq] at h
          obtain ⟨h1, hw⟩ := h
          subst h1
          simp [setVersion, chooseVersion, h2, h3]

/-- Witness for C7: a fresh AUTO builder with nothing on disk sets the
code version; re-evaluating on the resulting state is rejected. -/
theorem c7_version_decision_evaluated_once_witness :
    setVersion (some ⟨1, 0, 0⟩) VersionReq.auto
        { version := some ⟨1, 0, 0⟩, dataDir := none } =
      Except.error BuilderError.versionAlreadySet :=
  c7_version_decision_evaluated_once (some ⟨1, 0, 0⟩) VersionReq.auto
    { version := none, dataDir := none }
    { version := some ⟨1, 0, 0⟩, dataDir := none } false rfl

/-- The config declared by the dataset code in the C8/C9 scenarios. -/
def declaredConfig : BuilderConfig :=
  { objId := 0, name := "cfg", version := "1.0.0", description := "desc" }

/-- A distinct config object (different identity) reusing the declared
name, carrying both a version and a description. -/
def imposterConfig : BuilderConfig :=
  { objId := 1, name := "cfg", version := "1.0.0", description := "desc" }

/-- C8 counterexample: a config whose name matches a declared config and
which carries both a non-empty version and a non-empty description is
nevertheless rejected when it is not the declared object itself
(`builder_config is not self.builder_configs[name]`). -/
theorem c8_counterexample_name_clash_rejected :
    createBuilderConfig (some (ConfigArg.byValue imposterConfig))
        [declaredConfig] =
      Except.error ConfigError.customNameClash := rfl

/-- C8 (amended): for a config whose (non-empty) name matches a declared
config, construction succeeds exactly when it is the declared config
object itself and carries both a non-empty version and a non-empty
description; in every other case it fails with an error. -/
theorem c8_declared_config_needs_version_and_description
    (cfgs : List BuilderConfig) (c reg : BuilderConfig)
    (hname : c.name ≠ "") (hnodup : hasDupNames cfgs = false)
    (hlook : lookupConfig cfgs c.name = some reg) :
    (createBuilderConfig (some (ConfigArg.byValue c)) cfgs =
        Except.ok (some c) ↔
      (reg = c ∧ c.version ≠ "" ∧ c.description ≠ "")) ∧
    (¬(reg = c ∧ c.version ≠ "" ∧ c.description ≠ "") →
      ∃ e, createBuilderConfig (some (ConfigArg.byValue c)) cfgs =
        Except.error e) := by
  have hred : createBuilderConfig (some (ConfigArg.byValue c)) cfgs =
      validateConfig c cfgs := rfl
  rw [hred]
  unfold validateConfig
  rw [hlook]
  simp only [hname, if_false, hnodup]
  by_cases h1 : reg = c
  · by_cases h2 : c.version = ""
    · simp [h1, h2]
    · by_cases h3 : c.description = ""
      · simp [h1, h2, h3]
      · simp [h1, h2, h3]
  · simp [h1, Ne.symm]

/-- Witness for C8 (amended): the declared config itself, with version
and description present, is accepted. -/
theorem c8_declared_config_needs_version_and_description_witness :
    createBuilderConfig (some (ConfigArg.byValue declaredConfig))
        [declaredConfig] =
      Except.ok (some declaredConfig) :=
  (c8_declared_config_needs_version_and_description [declaredConfig]
      declaredConfig declaredConfig (by simp [declaredConfig]) rfl rfl).1.mpr
    ⟨rfl, by simp [declaredConfig], by simp [declaredConfig]⟩

/-- C9: when no config argument is given and `BUILDER_CONFIGS` is
non-empty, any successfully constructed builder has the first declared
config as its active config. -/
theorem c9_default_config_is_first (c : BuilderConfig)
    (rest : List BuilderConfig) (res : Option BuilderConfig)
    (hok : createBuilderConfig none (c :: rest) = Except.ok res) :
    res = some c := by
  have hred : createBuilderConfig none (c :: rest) =
      validateConfig c (c :: rest) := rfl
  rw [hred] at hok
  unfold validateConfig at hok
  rcases hl : lookupConfig (c :: rest) c.name with _ | reg <;>
    simp only [hl] at hok <;> split_ifs at hok <;> simp_all

/-- Witness for C9: with `BUILDER_CONFIGS = [declaredConfig]` and no
config argument, the active config is the first declared one. -/
theorem c9_default_config_is_first_witness :
    (some declaredConfig : Option BuilderConfig) = some declaredConfig :=
  c9_default_config_is_first declaredConfig [] (some declaredConfig) rfl

/-- C10 counterexample: a record whose is-train and is-test fields are
both truthy is yielded, under the same key, by both the TRAIN call
(`istrain=True, istest=False`) and the TEST call (`istrain=False,
istest=True`), so the two yields are not disjoint. -/
theorem c10_counterexample_both_flags_record_in_both_splits :
    (generateExamples true false [⟨true, true, 0⟩] = [(0, ⟨true, true, 0⟩)]) ∧
    (generateExamples false true [⟨true, true, 0⟩] = [(0, ⟨true, true, 0⟩)]) ∧
    ((0, (⟨true, true, 0⟩ : FlicExample)) ∈
        generateExamples true false [⟨true, true, 0⟩] ∧
      (0, (⟨true, true, 0⟩ : FlicExample)) ∈
        generateExamples false true [⟨true, true, 0⟩]) := by
  refine ⟨rfl, rfl, ?_, ?_⟩ <;> simp [generateExamples, List.enum, List.enumFrom]

/-- C10 (amended): `_generate_examples` yields the record at index `i`
exactly when `(example[7] and istrain) or (example[8] and istest)`, keyed
by the enumeration index `i`; and the TRAIN and TEST yields are disjoint
provided no input record has both flag fields truthy. -/
theorem c10_yield_condition_and_conditional_disjointness
    (istrain istest : Bool) (examples : List FlicExample) (i : Nat)
    (e : FlicExample) :
    ((i, e) ∈ generateExamples istrain istest examples ↔
      (examples[i]? = some e ∧
        ((e.field7 && istrain) || (e.field8 && istest)) = true)) ∧
    ((∀ x ∈ examples, ¬(x.field7 = true ∧ x.field8 = true)) →
      ¬((i, e) ∈ generateExamples true false examples ∧
        (i, e) ∈ generateExamples false true examples)) := by
  have hmem : ∀ (tr te : Bool),
      (i, e) ∈ generateExamples tr te examples ↔
        (examples[i]? = some e ∧
          ((e.field7 && tr) || (e.field8 && te)) = true) := by
    intro tr te
    simp only [generateExamples, List.mem_filter,
      List.mk_mem_enum_iff_getElem?]
  refine ⟨hmem istrain istest, ?_⟩
  intro hexcl ⟨htrain, htest⟩
  obtain ⟨hget, h7⟩ := (hmem true false).mp htrain
  obtain ⟨-, h8⟩ := (hmem false true).mp htest
  simp only [Bool.and_true, Bool.and_false, Bool.or_false, Bool.false_or]
    at h7 h8
  have he : e ∈ examples := by
    rw [List.getElem?_eq_some] at hget
    obtain ⟨hi, rfl⟩ := hget
    exact List.getElem_mem hi
  exact hexcl e he ⟨h7, h8⟩

/-- Witness for C10 (amended): a record flagged train-only is never
yielded by both calls. -/
theorem c10_yield_condition_and_conditional_disjointness_witness :
    ¬((0, (⟨true, false, 0⟩ : FlicExample)) ∈
        generateExamples true false [⟨true, false, 0⟩] ∧
      (0, (⟨true, false, 0⟩ : FlicExample)) ∈
        generateExamples false true [⟨true, false, 0⟩]) :=
  (c10_yield_condition_and_conditional_disjointness true false
      [⟨true, false, 0⟩] 0 ⟨true, false, 0⟩).2 (by simp)
